import Mathlib

/-!
# Verification of the ddd tachograph decoder (`tacho_lib/tacho_parser.py`)

Shallow embedding of the decoder in Lean 4.  Bytes are `Nat`s, buffers are
`List Nat`.  Python operations that can raise (`struct.unpack`,
`datetime.datetime`, indexing) are modelled at each call site exactly as the
source guards or catches them; where the source guards make a failure
unreachable, the model uses a total function with a default at the
unreachable branch.  `datetime.datetime.fromtimestamp` is modelled as UTC
civil time (the host timezone is environment state; no claim depends on it).
-/

set_option autoImplicit false

namespace Tacho

/-- Bytes modelled as natural numbers; a buffer is a `List Nat`. -/
abbrev Buffer := List Nat

/-- Python slice index resolution for `raw[a:b]` (step 1): a negative index
counts from the end; everything is clamped to `[0, n]`. -/
def pyIdx (n : Nat) (i : Int) : Nat :=
  if i < 0 then ((n : Int) + i).toNat else min i.toNat n

/-- Python `raw[a:b]`. -/
def pySlice (raw : Buffer) (a b : Int) : Buffer :=
  (raw.drop (pyIdx raw.length a)).take (pyIdx raw.length b - pyIdx raw.length a)

/-- Python `raw[i]` at call sites where the source guards `i` in range; the
out-of-range default 0 is unreachable at every use. -/
def pyGet (raw : Buffer) (i : Int) : Nat :=
  if i < 0 then raw.getD ((raw.length : Int) + i).toNat 0 else raw.getD i.toNat 0

/-- `struct.unpack('>H', s)[0]`; every call site guarantees a 2-byte slice. -/
def u16be : Buffer → Nat
  | [a, b] => a * 256 + b
  | _ => 0

/-- `struct.unpack('>I', s)[0]`; every call site guarantees a 4-byte slice. -/
def u32be : Buffer → Nat
  | [a, b, c, d] => ((a * 256 + b) * 256 + c) * 256 + d
  | _ => 0

/-- `struct.unpack('<I', s)[0]`. -/
def u32le : Buffer → Nat
  | [a, b, c, d] => ((d * 256 + c) * 256 + b) * 256 + a
  | _ => 0

/-- `struct.unpack('>i', s)[0]`: signed big-endian 32-bit. -/
def i32be (s : Buffer) : Int :=
  let v := u32be s
  if v < 2147483648 then (v : Int) else (v : Int) - 4294967296

/-- `bytes.lower()` on one byte: ASCII lowercasing. -/
def lowerByte (b : Nat) : Nat := if 65 ≤ b ∧ b ≤ 90 then b + 32 else b

/-- `bytes.lower()`. -/
def lowerB (raw : Buffer) : Buffer := raw.map lowerByte

/-- Does `pat` occur in `raw` starting exactly at position `p`? -/
def matchAt (raw pat : Buffer) (p : Nat) : Bool :=
  (raw.drop p).take pat.length == pat

/-- Python `raw.find(pat, start)` for nonempty `pat`: least `p ≥ start` where
`pat` occurs. -/
def bytesFind (raw pat : Buffer) (start : Nat) : Option Nat :=
  (List.range (raw.length + 1)).find? (fun p => decide (start ≤ p) && matchAt raw pat p)

/-- Python `raw.find(pat)` with Python's `-1` not-found convention. -/
def pyFind (raw pat : Buffer) : Int :=
  match bytesFind raw pat 0 with
  | some p => (p : Int)
  | none => -1

/-- Python `pat in raw`. -/
def containsB (raw pat : Buffer) : Bool := (bytesFind raw pat 0).isSome

/-- ASCII string literal as bytes. -/
def strB (s : String) : Buffer := s.toList.map Char.toNat

/-- A decoded calendar timestamp (the payload Python's
`strftime('%Y-%m-%d %H:%M:%S')` prints). -/
structure DateTime where
  year : Nat
  month : Nat
  day : Nat
  hour : Nat
  minute : Nat
  second : Nat
deriving DecidableEq, Repr

/-- Gregorian leap year. -/
def isLeap (y : Nat) : Bool := y % 4 == 0 && (y % 100 != 0 || y % 400 == 0)

/-- Length of month `m` of year `y`. -/
def daysInMonth (y m : Nat) : Nat :=
  if m = 2 then (if isLeap y then 29 else 28)
  else if m = 4 ∨ m = 6 ∨ m = 9 ∨ m = 11 then 30
  else 31

/-- Length of year `y` in days. -/
def daysInYear (y : Nat) : Nat := if isLeap y then 366 else 365

/-- Year and day-of-year from days since 1970-01-01 (fuel covers any 32-bit
Unix timestamp). -/
def ydStep : Nat → Nat → Nat → Nat × Nat
  | 0, y, d => (y, d)
  | fuel + 1, y, d =>
    if d < daysInYear y then (y, d) else ydStep fuel (y + 1) (d - daysInYear y)

/-- Month and 0-based day-in-month from a 0-based day-of-year. -/
def mdStep : Nat → Nat → Nat → Nat → Nat × Nat
  | 0, _, m, d => (m, d)
  | fuel + 1, y, m, d =>
    if d < daysInMonth y m then (m, d) else mdStep fuel y (m + 1) (d - daysInMonth y m)

/-- `datetime.datetime.fromtimestamp`, modelled as UTC civil time. -/
def fromtimestampUTC (ts : Nat) : DateTime :=
  let days := ts / 86400
  let rem := ts % 86400
  let yd := ydStep 200 1970 days
  let md := mdStep 12 yd.1 1 yd.2
  ⟨yd.1, md.1, md.2 + 1, rem / 3600, rem % 3600 / 60, rem % 60⟩

/-- A timestamp-valued field: the `"N/A"` sentinel, the literal
`'calculated'` placeholder used by one V2 activity layout, or a formatted
date-time. -/
inductive TimeVal where
  | na : TimeVal
  | calculated : TimeVal
  | dt : DateTime → TimeVal
deriving DecidableEq, Repr

/-- Validity of `datetime.datetime(y, m, d, h, mi)` (the constructor raises
`ValueError` outside these bounds). -/
def datetimeValid (y m d h mi : Nat) : Bool :=
  1 ≤ y && y ≤ 9999 && 1 ≤ m && m ≤ 12 && 1 ≤ d && d ≤ daysInMonth y m &&
  h ≤ 23 && mi ≤ 59

/-- `TachoParser._parse_timestamp`: big-endian u32 Unix seconds; rejects only
0 (and short input). -/
def parse_timestamp (data : Buffer) : TimeVal :=
  if 4 ≤ data.length then
    let ts := u32be (data.take 4)
    if 0 < ts then .dt (fromtimestampUTC ts) else .na
  else .na

/-- `TachoParser._bcd_to_int`. -/
def bcd_to_int (b : Nat) : Nat := (b / 16) * 10 + b % 16

/-- `TachoParser._parse_timestamp_bcd` (reads `self.raw_data` at `offset`).
The `datetime.datetime` constructor call is the second validation layer: a
`ValueError` there is caught to `"N/A"`. -/
def parse_timestamp_bcd (raw : Buffer) (offset : Int) : TimeVal :=
  if (raw.length : Int) < offset + 4 then .na
  else
    let bcd := pySlice raw offset (offset + 4)
    if bcd.length < 4 then .na
    else
      let year := 2000 + bcd_to_int (bcd.getD 0 0)
      let month := bcd_to_int (bcd.getD 1 0)
      let day := bcd_to_int (bcd.getD 2 0)
      let hour := bcd_to_int (bcd.getD 3 0 / 16)
      let minute := bcd_to_int (bcd.getD 3 0 % 16) * 10
      if 1 ≤ month ∧ month ≤ 12 ∧ 1 ≤ day ∧ day ≤ 31 ∧ hour ≤ 23 ∧ minute ≤ 59 then
        if datetimeValid year month day hour minute then
          .dt ⟨year, month, day, hour, minute, 0⟩
        else .na
      else .na

/-- `TachoParser._parse_v2_timestamp`: three interpretations tried in order
(plain epoch seconds if past 2000; epoch-2000 offset if below the 2038
overflow bound; little-endian in the 2000–2038 window). -/
def parse_v2_timestamp (data : Buffer) : TimeVal :=
  if 4 ≤ data.length then
    let ts := u32be (data.take 4)
    if 946684800 < ts then .dt (fromtimestampUTC ts)
    else if ts + 946684800 < 2147483647 then .dt (fromtimestampUTC (ts + 946684800))
    else
      let tsl := u32le (data.take 4)
      if 946684800 < tsl ∧ tsl < 2147483647 then .dt (fromtimestampUTC tsl) else .na
  else .na

/-- A text-valued field: the `"N/A"` sentinel or decoded bytes. -/
inductive StrVal where
  | na : StrVal
  | s : Buffer → StrVal
deriving DecidableEq, Repr

/-- `str.strip('\x00')`: strip NUL from both ends. -/
def stripNul (l : Buffer) : Buffer :=
  ((l.dropWhile (· == 0)).reverse.dropWhile (· == 0)).reverse

/-- `bytes.decode('latin-1', errors='ignore')`: one char per byte, total. -/
def decodeLatin1 (l : Buffer) : Buffer := l

/-- `bytes.decode('ascii', errors='ignore')`: drops bytes ≥ 128. -/
def decodeAsciiIgnore (l : Buffer) : Buffer := l.filter (· < 128)

/-- `TachoParser._extract_string`. -/
def extract_string (raw : Buffer) (offset : Int) (length : Nat) : StrVal :=
  if (raw.length : Int) < offset + length then .na
  else .s (stripNul (decodeLatin1 (pySlice raw offset (offset + length))))

/-- `TachoParser.ACTIVITY_TYPES` as a lookup. -/
def ACTIVITY_TYPES (b : Nat) : Option String :=
  if b = 0x00 then some "break" else if b = 0x01 then some "available"
  else if b = 0x02 then some "work" else if b = 0x03 then some "driving"
  else if b = 0xFF then some "unknown" else none

/-- `self.ACTIVITY_TYPES.get(b, 'unknown')`. -/
def activityTypesGet (b : Nat) : String := (ACTIVITY_TYPES b).getD "unknown"

/-- `TachoParser.SMART_V2_ACTIVITY_TYPES` as a lookup. -/
def SMART_V2_ACTIVITY_TYPES (b : Nat) : Option String :=
  if b = 0x10 then some "driving" else if b = 0x20 then some "work"
  else if b = 0x30 then some "available" else if b = 0x40 then some "break"
  else if b = 0x50 then some "rest" else if b = 0xFF then some "unknown" else none

/-- `TachoParser._decode_v2_activity_type`. -/
def decode_v2_activity_type (b : Nat) : String :=
  (SMART_V2_ACTIVITY_TYPES b).getD "unknown"

/-- `TachoParser._decode_v2_event_type`. -/
def decode_v2_event_type (b : Nat) : String :=
  if b = 0x01 then "speed_violation" else if b = 0x02 then "driving_time_violation"
  else if b = 0x03 then "card_inserted" else if b = 0x04 then "card_removed"
  else if b = 0x05 then "power_supply_interruption"
  else if b = 0x06 then "motion_sensor_fault"
  else if b = 0x07 then "calibration_error" else if b = 0x08 then "data_corruption"
  else if b = 0xFF then "unknown" else "unknown"

/-- `TachoParser._get_v2_event_description`. -/
def get_v2_event_description (etype ecode : Nat) : String :=
  let base :=
    if etype = 0x01 then "Przekroczenie prędkości"
    else if etype = 0x02 then "Przekroczenie czasu jazdy"
    else if etype = 0x03 then "Włożenie karty kierowcy"
    else if etype = 0x04 then "Wyjęcie karty kierowcy"
    else if etype = 0x05 then "Przerwa w zasilaniu"
    else if etype = 0x06 then "Błąd sensora ruchu"
    else if etype = 0x07 then "Błąd kalibracji"
    else if etype = 0x08 then "Uszkodzenie danych"
    else "Nieznane zdarzenie"
  if ecode ≠ 0 then base ++ " (kod: " ++ toString ecode ++ ")" else base

/-- A GPS location field: sentinel or the validated raw micro-degree pair
(the printed float is determined by the pair; the float bound check
`-90 <= raw/1e6 <= 90` is exact integer arithmetic at these magnitudes). -/
inductive LocVal where
  | na : LocVal
  | loc : Int → Int → LocVal
deriving DecidableEq, Repr

/-- `TachoParser._parse_location`. -/
def parse_location (raw : Buffer) (offset : Int) : LocVal :=
  if (raw.length : Int) < offset + 8 then .na
  else
    let latRaw := i32be (pySlice raw offset (offset + 4))
    let lonRaw := i32be (pySlice raw (offset + 4) (offset + 8))
    if -90000000 ≤ latRaw ∧ latRaw ≤ 90000000 ∧
       -180000000 ≤ lonRaw ∧ lonRaw ≤ 180000000 then
      .loc latRaw lonRaw
    else .na

/-- `TachoParser._find_section`: `bytes.find` never raises, so the source's
`except` branch (returning `None`) is dead; the result is the Python integer. -/
def find_section (raw tag : Buffer) : Int := pyFind raw tag

/-- Standard-EU header: error marker, or (file_type, version, creation_time,
data_length, signature bytes). -/
inductive StdHeader where
  | err : String → StdHeader
  | ok : Buffer → Nat → TimeVal → Nat → Buffer → StdHeader
deriving DecidableEq, Repr

/-- `TachoParser._parse_header`. -/
def parse_header (raw : Buffer) : StdHeader :=
  if raw.length < 20 then .err "Plik zbyt krótki"
  else
    .ok (decodeAsciiIgnore (pySlice raw 0 4))
      (if 6 ≤ raw.length then u16be (pySlice raw 4 6) else 0)
      (if 10 ≤ raw.length then parse_timestamp (pySlice raw 6 10) else .na)
      (if 14 ≤ raw.length then u32be (pySlice raw 10 14) else 0)
      (if 20 ≤ raw.length then pySlice raw 14 20 else [])

/-- Card-data section: error marker, or (driver_name, license_number,
card_number, card_expiry, issuing_authority). -/
inductive CardData where
  | err : String → CardData
  | ok : StrVal → StrVal → StrVal → TimeVal → StrVal → CardData
deriving DecidableEq, Repr

/-- `TachoParser._parse_card_data`.  The source tests `if not card_section`,
i.e. Python truthiness of the integer offset: offset 0 is treated as
not-found, and the `-1` returned for an absent tag is treated as found. -/
def parse_card_data (raw : Buffer) : CardData :=
  let card_section := find_section raw [5, 1]
  if card_section = 0 then .err "Nie znaleziono danych karty"
  else
    let offset := card_section
    if (raw.length : Int) < offset + 78 then .err "Niepełne dane karty"
    else
      .ok (extract_string raw (offset + 4) 36)
        (extract_string raw (offset + 40) 16)
        (extract_string raw (offset + 56) 18)
        (if offset + 74 + 4 ≤ (raw.length : Int) then parse_timestamp_bcd raw (offset + 74)
         else .na)
        (if offset + 78 + 36 ≤ (raw.length : Int) then extract_string raw (offset + 78) 36
         else .na)

/-- Vehicle-data section: error marker, or (registration, vin,
odometer_start, odometer_end, speed_limit). -/
inductive VehicleData where
  | err : String → VehicleData
  | ok : StrVal → StrVal → Nat → Nat → Nat → VehicleData
deriving DecidableEq, Repr

/-- `TachoParser._parse_vehicle_data` (same truthiness test as card data). -/
def parse_vehicle_data (raw : Buffer) : VehicleData :=
  let vehicle_section := find_section raw [5, 5]
  if vehicle_section = 0 then .err "Nie znaleziono danych pojazdu"
  else
    let offset := vehicle_section
    if (raw.length : Int) < offset + 45 then .err "Niepełne dane pojazdu"
    else
      .ok (extract_string raw (offset + 4) 14)
        (extract_string raw (offset + 18) 17)
        (if offset + 39 ≤ (raw.length : Int) then u32be (pySlice raw (offset + 35) (offset + 39))
         else 0)
        (if offset + 43 ≤ (raw.length : Int) then u32be (pySlice raw (offset + 39) (offset + 43))
         else 0)
        (if offset + 45 ≤ (raw.length : Int) then u16be (pySlice raw (offset + 43) (offset + 45))
         else 0)

/-- Standard-EU activity entry: error marker, or a record
(start_time, activity_type, duration, location). -/
inductive EUActivity where
  | err : String → EUActivity
  | record : TimeVal → String → Nat → LocVal → EUActivity
deriving DecidableEq, Repr

/-- The record loop of `_parse_activities`: first argument is the remaining
iteration count `min(record_count, 1000) - i`. -/
def euActivityLoop (raw : Buffer) : Nat → Int → List EUActivity → List EUActivity
  | 0, _, acc => acc
  | n + 1, offset, acc =>
    if (raw.length : Int) < offset + 8 then acc
    else
      let a : EUActivity :=
        .record (parse_timestamp_bcd raw offset)
          (activityTypesGet (if offset + 4 < (raw.length : Int) then pyGet raw (offset + 4) else 0xFF))
          (if offset + 7 ≤ (raw.length : Int) then u16be (pySlice raw (offset + 5) (offset + 7)) else 0)
          (if offset + 15 ≤ (raw.length : Int) then parse_location raw (offset + 7) else .na)
      euActivityLoop raw n (offset + 8) (acc ++ [a])

/-- `TachoParser._parse_activities` (same truthiness test on the offset). -/
def parse_activities (raw : Buffer) : List EUActivity :=
  let activity_section := find_section raw [5, 2]
  if activity_section = 0 then [.err "Nie znaleziono danych aktywności"]
  else
    let offset := activity_section + 4
    if (raw.length : Int) < offset + 2 then [.err "Niepełne dane aktywności"]
    else
      let record_count := u16be (pySlice raw offset (offset + 2))
      euActivityLoop raw (min record_count 1000) (offset + 2) []

/-- Standard-EU event entry.  The `record` shape mirrors the spec's EventRecord
`(timestamp, event_type, event_code, description)`; the source has no code
path constructing it (`_parse_events` is a stub past the section lookup). -/
inductive EUEvent where
  | info : String → EUEvent
  | err : String → EUEvent
  | record : TimeVal → String → Nat → String → EUEvent
deriving DecidableEq, Repr

/-- `TachoParser._parse_events`: locates tag `05 03` (with the truthiness
test) and decodes nothing. -/
def parse_events (raw : Buffer) : List EUEvent :=
  let events_section := find_section raw [5, 3]
  if events_section = 0 then [.info "Brak zdarzeń"] else []

/-- Standard-EU speed entry; `record` mirrors the spec's SpeedSample
`(timestamp, speed_kmh, rpm)`; the source never constructs it. -/
inductive EUSpeed where
  | info : String → EUSpeed
  | err : String → EUSpeed
  | record : TimeVal → Nat → Nat → EUSpeed
deriving DecidableEq, Repr

/-- `TachoParser._parse_speeds`: locates tag `05 04` and decodes nothing. -/
def parse_speeds (raw : Buffer) : List EUSpeed :=
  let speed_section := find_section raw [5, 4]
  if speed_section = 0 then [.info "Brak danych prędkości"] else []

/-- First `some` in a list of attempts (the source's first-matching-pattern
cascades). -/
def firstSome {α : Type} : List (Option α) → Option α
  | [] => none
  | some a :: _ => some a
  | none :: rest => firstSome rest

/-- First nonempty list among the scans (the source's
`if results: extend; break` loops). -/
def firstNonEmptyList {α : Type} : List (List α) → List α
  | [] => []
  | l :: rest => if l.isEmpty then firstNonEmptyList rest else l

/-- ASCII digit class `[0-9]` / `\d` (bytes). -/
def isDigitB (b : Nat) : Bool := 48 ≤ b && b ≤ 57

/-- `\s` for bytes regexes, and what `str.strip()` strips on ASCII text. -/
def isSpaceB (b : Nat) : Bool :=
  b == 32 || b == 9 || b == 10 || b == 11 || b == 12 || b == 13

/-- `str.strip()` on both ends. -/
def stripWs (l : Buffer) : Buffer :=
  ((l.dropWhile isSpaceB).reverse.dropWhile isSpaceB).reverse

/-- Greedy count of leading bytes of `l` inside class `cls`. -/
def classCount (cls : Nat → Bool) : Buffer → Nat
  | [] => 0
  | b :: rest => if cls b then classCount cls rest + 1 else 0

/-- One attempt of the regex shape `LIT([cls]{lo,hi})` at the head of `s`:
literal prefix, then a greedy counted class repeat (nothing follows the
group in any source pattern, so no backtracking arises); `ic` is
`re.IGNORECASE`, ASCII-only on bytes. -/
def tryLitClass (ic : Bool) (lit : Buffer) (cls : Nat → Bool) (lo hi : Nat)
    (s : Buffer) : Option Buffer :=
  let litEq :=
    if ic then (s.take lit.length).map lowerByte == lit.map lowerByte
    else s.take lit.length == lit
  if litEq && decide (lit.length ≤ s.length) then
    let rest := s.drop lit.length
    let n := classCount cls rest
    if lo ≤ n then some (rest.take (min n hi)) else none
  else none

/-- `re.search` driver: try `step` at every suffix, leftmost match wins. -/
def searchAt {α : Type} (step : Buffer → Option α) : Buffer → Option α
  | [] => step []
  | b :: rest =>
    match step (b :: rest) with
    | some g => some g
    | none => searchAt step rest

/-- `[A-Z0-9]`. -/
def clsAZ09 (b : Nat) : Bool := (65 ≤ b && b ≤ 90) || (48 ≤ b && b ≤ 57)

/-- `[A-Z0-9]` under `re.IGNORECASE`. -/
def clsAZ09ic (b : Nat) : Bool :=
  (65 ≤ b && b ≤ 90) || (97 ≤ b && b ≤ 122) || (48 ≤ b && b ≤ 57)

/-- `[A-ZĄĆĘŁŃÓŚŹŻ\s]` as a bytes class (each Polish letter contributes its
UTF-8 bytes) under `re.IGNORECASE` (ASCII-only). -/
def clsNameIC (b : Nat) : Bool :=
  (65 ≤ b && b ≤ 90) || (97 ≤ b && b ≤ 122) || isSpaceB b ||
  b == 0xC3 || b == 0xC4 || b == 0xC5 || b == 0x81 || b == 0x83 || b == 0x84 ||
  b == 0x86 || b == 0x93 || b == 0x98 || b == 0x9A || b == 0xB9 || b == 0xBB

/-- `[A-HJ-NPR-Z0-9]` (VIN alphabet). -/
def clsVin (b : Nat) : Bool :=
  (65 ≤ b && b ≤ 72) || (74 ≤ b && b ≤ 78) || b == 80 || (82 ≤ b && b ≤ 90) ||
  (48 ≤ b && b ≤ 57)

/-- `[A-Z0-9\s\-]`. -/
def clsReg (b : Nat) : Bool :=
  (65 ≤ b && b ≤ 90) || (48 ≤ b && b ≤ 57) || isSpaceB b || b == 45

/-- `[0-9]{1,2}\.`: greedy two digits if a dot follows, else one digit and a
dot (the only local backtracking the firmware pattern needs). -/
def tryDigits12Dot : Buffer → Option (Buffer × Buffer)
  | a :: b :: c :: rest =>
    if isDigitB a && isDigitB b && c == 46 then some ([a, b, 46], rest)
    else if isDigitB a && b == 46 then some ([a, 46], c :: rest)
    else none
  | [a, b] => if isDigitB a && b == 46 then some ([a, 46], []) else none
  | _ => none

/-- Trailing `[0-9]{1,2}`, greedy. -/
def tryDigits12 : Buffer → Option (Buffer × Buffer)
  | a :: b :: rest =>
    if isDigitB a && isDigitB b then some ([a, b], rest)
    else if isDigitB a then some ([a], b :: rest)
    else none
  | [a] => if isDigitB a then some ([a], []) else none
  | [] => none

/-- One attempt of `LIT([0-9]{1,2}\.[0-9]{1,2}\.[0-9]{1,2})` at the head. -/
def tryFw (lit : Buffer) (s : Buffer) : Option Buffer :=
  if s.take lit.length == lit then
    match tryDigits12Dot (s.drop lit.length) with
    | none => none
    | some (g1, r1) =>
      match tryDigits12Dot r1 with
      | none => none
      | some (g2, r2) =>
        match tryDigits12 r2 with
        | none => none
        | some (g3, _) => some (g1 ++ g2 ++ g3)
  else none

/-- Serial-number cascade of `_parse_v2_header`: first of `SN:`, `SERIAL:`,
`S/N:`, `SER:` followed by 8–16 `[A-Z0-9]`, searched in the first 800
bytes. -/
def v2SerialNumber (raw : Buffer) : Option Buffer :=
  let hay := pySlice raw 0 800
  firstSome
    [searchAt (tryLitClass false (strB "SN:") clsAZ09 8 16) hay,
     searchAt (tryLitClass false (strB "SERIAL:") clsAZ09 8 16) hay,
     searchAt (tryLitClass false (strB "S/N:") clsAZ09 8 16) hay,
     searchAt (tryLitClass false (strB "SER:") clsAZ09 8 16) hay]

/-- Firmware-version cascade of `_parse_v2_header`. -/
def v2Firmware (raw : Buffer) : Option Buffer :=
  let hay := pySlice raw 0 800
  firstSome
    [searchAt (tryFw (strB "FW:")) hay,
     searchAt (tryFw (strB "FIRMWARE:")) hay,
     searchAt (tryFw (strB "VER:")) hay,
     searchAt (tryFw (strB "V")) hay]

/-- The creation-time scan of `_parse_v2_header`: fixed offsets past the
first `VDO`, first timestamp decoding to non-sentinel wins. -/
def v2VdoCreation (raw : Buffer) (vdoPos : Nat) : Option TimeVal :=
  firstSome ([20, 24, 28, 32].map (fun off =>
    if ((vdoPos + off + 4 : Nat) : Int) < (raw.length : Int) then
      match parse_timestamp (pySlice raw (vdoPos + off) (vdoPos + off + 4)) with
      | .na => none
      | t => some t
    else none))

/-- Shape items of the generic date regexes: an exact-count digit run or one
literal byte. -/
inductive PatItem where
  | digits : Nat → PatItem
  | byte : Nat → PatItem

/-- Match a shape at the head of `s`, returning the matched bytes. -/
def matchItems : List PatItem → Buffer → Option Buffer
  | [], _ => some []
  | PatItem.digits n :: items, s =>
    if (s.take n).length = n ∧ (s.take n).all isDigitB then
      match matchItems items (s.drop n) with
      | some g => some (s.take n ++ g)
      | none => none
    else none
  | PatItem.byte b :: items, s =>
    match s with
    | c :: rest =>
      if c = b then
        match matchItems items rest with
        | some g => some (b :: g)
        | none => none
      else none
    | [] => none

/-- Split the whole of `s` along a shape, returning the digit runs
(`datetime.strptime` anchors the full string). -/
def splitItems : List PatItem → Buffer → Option (List Buffer)
  | [], [] => some []
  | [], _ :: _ => none
  | PatItem.digits n :: items, s =>
    if (s.take n).length = n ∧ (s.take n).all isDigitB then
      match splitItems items (s.drop n) with
      | some gs => some (s.take n :: gs)
      | none => none
    else none
  | PatItem.byte b :: items, s =>
    match s with
    | c :: rest => if c = b then splitItems items rest else none
    | [] => none

/-- `\d{4}-\d{2}-\d{2} \d{2}:\d{2}:\d{2}`. -/
def datePat1 : List PatItem :=
  [.digits 4, .byte 45, .digits 2, .byte 45, .digits 2, .byte 32,
   .digits 2, .byte 58, .digits 2, .byte 58, .digits 2]

/-- `\d{2}/\d{2}/\d{4} \d{2}:\d{2}`. -/
def datePat2 : List PatItem :=
  [.digits 2, .byte 47, .digits 2, .byte 47, .digits 4, .byte 32,
   .digits 2, .byte 58, .digits 2]

/-- `\d{8} \d{6}`. -/
def datePat3 : List PatItem := [.digits 8, .byte 32, .digits 6]

/-- Decimal value of a digit run. -/
def digitsToNat (l : Buffer) : Nat := l.foldl (fun acc b => acc * 10 + (b - 48)) 0

/-- `datetime.strptime(s, '%Y-%m-%d %H:%M:%S')` on the shapes the date
regexes can produce: exact-shape split plus the range/calendar validation
CPython applies (field regexes plus `datetime` construction). -/
def strptime1 (s : Buffer) : Option DateTime :=
  match splitItems datePat1 s with
  | some [y, mo, d, h, mi, sec] =>
    let yv := digitsToNat y
    let mov := digitsToNat mo
    let dv := digitsToNat d
    let hv := digitsToNat h
    let miv := digitsToNat mi
    let sv := digitsToNat sec
    if datetimeValid yv mov dv hv miv && sv ≤ 59 then some ⟨yv, mov, dv, hv, miv, sv⟩
    else none
  | _ => none

/-- `datetime.strptime(s, '%d/%m/%Y %H:%M')`, same modelling. -/
def strptime2 (s : Buffer) : Option DateTime :=
  match splitItems datePat2 s with
  | some [d, mo, y, h, mi] =>
    let yv := digitsToNat y
    let mov := digitsToNat mo
    let dv := digitsToNat d
    let hv := digitsToNat h
    let miv := digitsToNat mi
    if datetimeValid yv mov dv hv miv then some ⟨yv, mov, dv, hv, miv, 0⟩
    else none
  | _ => none

/-- `datetime.strptime(s, '%Y%m%d %H%M%S')`, same modelling (the literal
space pins the greedy fields to widths 4+2+2 and 2+2+2). -/
def strptime3 (s : Buffer) : Option DateTime :=
  match splitItems datePat3 s with
  | some [ymd, hms] =>
    let yv := digitsToNat (ymd.take 4)
    let mov := digitsToNat ((ymd.drop 4).take 2)
    let dv := digitsToNat (ymd.drop 6)
    let hv := digitsToNat (hms.take 2)
    let miv := digitsToNat ((hms.drop 2).take 2)
    let sv := digitsToNat (hms.drop 4)
    if datetimeValid yv mov dv hv miv && sv ≤ 59 then some ⟨yv, mov, dv, hv, miv, sv⟩
    else none
  | _ => none

/-- The three `strptime` formats tried in order on one matched string. -/
def tryFormats (s : Buffer) : Option DateTime :=
  match strptime1 s with
  | some d => some d
  | none =>
    match strptime2 s with
    | some d => some d
    | none => strptime3 s

/-- `TachoParser._extract_v2_timestamp_alternative`: generic date-pattern
scan over the first 1000 bytes; per matched pattern, the formats are tried
and the outer loop moves on if none parses. -/
def extract_v2_timestamp_alternative (raw : Buffer) : TimeVal :=
  let hay := pySlice raw 0 1000
  let step := fun (pat : List PatItem) =>
    match searchAt (matchItems pat) hay with
    | some g => tryFormats g
    | none => none
  match step datePat1 with
  | some d => .dt d
  | none =>
    match step datePat2 with
    | some d => .dt d
    | none =>
      match step datePat3 with
      | some d => .dt d
      | none => .na

/-- Smart Tacho V2 header (`_parse_v2_header`): the optional keys the source
may set, plus the constant `format`, `file_size` and `markers_found`. -/
structure V2Header where
  device_manufacturer : Bool
  device_type : Bool
  manufacturer : Bool
  serial_number : Option Buffer
  firmware_version : Option Buffer
  file_size : Nat
  markers_found : List String
  creation_time : TimeVal
deriving DecidableEq, Repr

/-- `TachoParser._parse_v2_header` (its `except` branch is dead: no body
operation raises). -/
def parse_v2_header (raw : Buffer) : V2Header :=
  let hasVdo := containsB (pySlice raw 0 200) (strB "VDO")
  let hasSmart := containsB (pySlice raw 0 500) (strB "SMART")
  let hasCont := containsB (pySlice raw 0 300) (strB "Continental")
  let vdoCreation :=
    if hasVdo then v2VdoCreation raw ((bytesFind raw (strB "VDO") 0).getD 0)
    else none
  let markers := (if hasVdo then ["VDO"] else []) ++
    (if hasSmart then ["SMART"] else []) ++ (if hasCont then ["Continental"] else [])
  let creation :=
    match vdoCreation with
    | some t => t
    | none => extract_v2_timestamp_alternative raw
  ⟨hasVdo, hasSmart, hasCont, (v2SerialNumber raw).map decodeAsciiIgnore,
   (v2Firmware raw).map decodeAsciiIgnore, raw.length, markers, creation⟩

/-- Smart Tacho V2 driver data (`_parse_v2_driver_data`); the
`_find_v2_driver_block` merge is a placeholder returning the empty dict. -/
structure V2Driver where
  card_number : Option Buffer
  driver_name : Option Buffer
  license_number : Option Buffer
deriving DecidableEq, Repr

/-- `TachoParser._parse_v2_driver_data`: per-field first-matching-pattern
cascades over the first 3000 bytes, `re.IGNORECASE`.  NOTE: the source's
driver-name patterns (tacho_parser.py lines 222-225) place non-ASCII
Polish letters inside `rb` bytes literals — a `SyntaxError` in every
Python 3 ("bytes can only contain ASCII literal characters"), so the
module never imports; see `driverNamePatternBytes` and the C1 theorem.
This definition models the evidently intended semantics, each Polish
letter contributing its UTF-8 bytes to the class (`clsNameIC`). -/
def parse_v2_driver_data (raw : Buffer) : V2Driver :=
  let hay := pySlice raw 0 3000
  let card := firstSome
    [searchAt (tryLitClass true (strB "CARD:") clsAZ09ic 16 16) hay,
     searchAt (tryLitClass true (strB "CARD_NO:") clsAZ09ic 16 16) hay,
     searchAt (tryLitClass true (strB "CARDNO:") clsAZ09ic 16 16) hay,
     searchAt (tryLitClass true (strB "CARD_NUM:") clsAZ09ic 8 20) hay]
  let name := firstSome
    [searchAt (tryLitClass true (strB "NAME:") clsNameIC 2 40) hay,
     searchAt (tryLitClass true (strB "DRIVER:") clsNameIC 2 40) hay,
     searchAt (tryLitClass true (strB "SURNAME:") clsNameIC 2 40) hay,
     searchAt (tryLitClass true (strB "DRVR:") clsNameIC 2 40) hay]
  let lic := firstSome
    [searchAt (tryLitClass true (strB "LIC:") clsAZ09ic 5 20) hay,
     searchAt (tryLitClass true (strB "LICENSE:") clsAZ09ic 5 20) hay,
     searchAt (tryLitClass true (strB "LICENCE:") clsAZ09ic 5 20) hay,
     searchAt (tryLitClass true (strB "DL:") clsAZ09ic 5 20) hay]
  ⟨card.map (fun g => stripWs (decodeAsciiIgnore g)),
   name.map (fun g => stripWs (decodeAsciiIgnore g)),
   lic.map (fun g => stripWs (decodeAsciiIgnore g))⟩

/-- Smart Tacho V2 vehicle data (`_parse_v2_vehicle_data`); the
`_find_v2_vehicle_block` merge is a placeholder returning the empty dict. -/
structure V2Vehicle where
  vin : Option Buffer
  registration : Option Buffer
  odometer : Option Nat
deriving DecidableEq, Repr

/-- `TachoParser._parse_v2_vehicle_data`: cascades over the first 2000
bytes, case-sensitive. -/
def parse_v2_vehicle_data (raw : Buffer) : V2Vehicle :=
  let hay := pySlice raw 0 2000
  let vin := firstSome
    [searchAt (tryLitClass false (strB "VIN:") clsVin 17 17) hay,
     searchAt (tryLitClass false (strB "VEHICLE_ID:") clsVin 17 17) hay,
     searchAt (tryLitClass false (strB "VIN_NO:") clsVin 17 17) hay,
     searchAt (tryLitClass false (strB "WVIN:") clsVin 17 17) hay]
  let reg := firstSome
    [searchAt (tryLitClass false (strB "REG:") clsReg 2 15) hay,
     searchAt (tryLitClass false (strB "PLATE:") clsReg 2 15) hay,
     searchAt (tryLitClass false (strB "LICENSE_PLATE:") clsReg 2 15) hay,
     searchAt (tryLitClass false (strB "LP:") clsReg 2 15) hay]
  let odo := firstSome
    [searchAt (tryLitClass false (strB "ODO:") isDigitB 6 8) hay,
     searchAt (tryLitClass false (strB "ODOMETER:") isDigitB 6 8) hay,
     searchAt (tryLitClass false (strB "MILEAGE:") isDigitB 6 8) hay,
     searchAt (tryLitClass false (strB "KM:") isDigitB 6 8) hay]
  ⟨vin.map decodeAsciiIgnore,
   reg.map (fun g => stripWs (decodeAsciiIgnore g)),
   odo.map digitsToNat⟩

/-- One Smart Tacho V2 activity candidate (every dict built by the source
carries these four keys). -/
structure V2Activity where
  start_time : TimeVal
  end_time : TimeVal
  activity_type : String
  duration : Nat
deriving DecidableEq, Repr

/-- `TachoParser._parse_single_v2_activity` (block sizes make every guard of
the `ACT:` layout true; guards are kept as written). -/
def parse_single_v2_activity (block : Buffer) (pat : Buffer) : Option V2Activity :=
  let offset := pat.length
  if block.length < offset + 16 then none
  else if pat == strB "ACT:" then
    some ⟨parse_v2_timestamp (pySlice block offset (offset + 4)),
      parse_v2_timestamp (pySlice block (offset + 4) (offset + 8)),
      decode_v2_activity_type
        (if offset + 8 < block.length then pyGet block (offset + 8) else 0xFF),
      if offset + 11 ≤ block.length then u16be (pySlice block (offset + 9) (offset + 11)) else 0⟩
  else
    some ⟨parse_v2_timestamp (pySlice block offset (offset + 4)),
      .calculated,
      decode_v2_activity_type
        (if offset + 4 < block.length then pyGet block (offset + 4) else 0xFF),
      if offset + 7 ≤ block.length then u16be (pySlice block (offset + 5) (offset + 7)) else 60⟩

/-- The `while` scan of `_parse_activities_by_pattern`: each hit advances
`pos` by the block size; fuel dominates the iteration count (the position
strictly grows by at least the block size per round). -/
def actPatLoop (raw pat : Buffer) (blockSize : Nat) :
    Nat → Nat → List V2Activity → List V2Activity
  | 0, _, acc => acc
  | fuel + 1, pos, acc =>
    match bytesFind raw pat pos with
    | none => acc
    | some p =>
      let acc' :=
        if p + blockSize < raw.length then
          match parse_single_v2_activity (pySlice raw p (p + blockSize)) pat with
          | some a => acc ++ [a]
          | none => acc
        else acc
      actPatLoop raw pat blockSize fuel (p + blockSize) acc'

/-- `TachoParser._parse_activities_by_pattern`. -/
def parse_activities_by_pattern (raw pat : Buffer) : List V2Activity :=
  let blockSize := if pat == strB "ACT:" then 50 else 60
  actPatLoop raw pat blockSize (raw.length + 1) 0 []

/-- `TachoParser._looks_like_v2_activity_block`. -/
def looks_like_v2_activity_block (block : Buffer) : Bool :=
  if block.length < 16 then false
  else
    let codes := [0x10, 0x20, 0x30, 0x40, 0x50]
    codes.contains (block.getD 0 0) ||
    (decide (4 < block.length) && codes.contains (block.getD 4 0)) ||
    (decide (8 < block.length) && codes.contains (block.getD 8 0))

/-- One candidate layout of `_parse_binary_activity_block`. -/
def tryLayout (block : Buffer) (atp tp dp : Nat) : Option V2Activity :=
  if atp < block.length ∧ tp + 4 ≤ block.length ∧ dp + 2 ≤ block.length then
    let t := decode_v2_activity_type (block.getD atp 0)
    let ts := parse_v2_timestamp (pySlice block tp (tp + 4))
    let dur := u16be (pySlice block dp (dp + 2))
    if t ≠ "unknown" ∧ ts ≠ .na ∧ 0 < dur ∧ dur < 1440 then
      some ⟨ts, .calculated, t, dur⟩
    else none
  else none

/-- `TachoParser._parse_binary_activity_block`: the three layouts in order. -/
def parse_binary_activity_block (block : Buffer) : Option V2Activity :=
  match tryLayout block 0 1 5 with
  | some a => some a
  | none =>
    match tryLayout block 4 0 8 with
    | some a => some a
    | none => tryLayout block 8 0 12

/-- The stepped window scan of `_parse_v2_binary_activities` (fuel covers
`5000 / 16` rounds). -/
def binActLoop (raw : Buffer) (stop : Nat) :
    Nat → Nat → List V2Activity → List V2Activity
  | 0, _, acc => acc
  | fuel + 1, i, acc =>
    if i < stop then
      let block := pySlice raw i (i + 16)
      let acc' :=
        if looks_like_v2_activity_block block then
          match parse_binary_activity_block block with
          | some a => acc ++ [a]
          | none => acc
        else acc
      if 30 ≤ acc'.length then acc'
      else binActLoop raw stop fuel (i + 16) acc'
    else acc

/-- `TachoParser._parse_v2_binary_activities`: 16-byte windows over
`range(0, min(len - 16, 5000), 16)`, stopping at 30 candidates. -/
def parse_v2_binary_activities (raw : Buffer) : List V2Activity :=
  if raw.length < 16 then []
  else binActLoop raw (min (raw.length - 16) 5000) 320 0 []

/-- `TachoParser._validate_v2_activity` (all three keys are present in every
candidate the source builds, so the `in` guards hold). -/
def validate_v2_activity (a : V2Activity) : Bool :=
  if a.activity_type == "unknown" then false
  else if a.start_time == TimeVal.na then false
  else if a.duration ≤ 0 || 1440 < a.duration then false
  else true

/-- The candidate collection of `_parse_v2_activities`: first textual marker
whose scan yields hits, else the binary fallback. -/
def v2ActivityCandidates (raw : Buffer) : List V2Activity :=
  let fromPatterns := firstNonEmptyList
    [parse_activities_by_pattern raw (strB "ACT:"),
     parse_activities_by_pattern raw (strB "ACTIVITY:"),
     parse_activities_by_pattern raw (strB "ACTV:"),
     parse_activities_by_pattern raw (strB "A:")]
  if fromPatterns.isEmpty then parse_v2_binary_activities raw else fromPatterns

/-- `TachoParser._parse_v2_activities`: candidates, safety cap at 50, then
per-candidate validation. -/
def parse_v2_activities (raw : Buffer) : List V2Activity :=
  ((v2ActivityCandidates raw).take 50).filter validate_v2_activity

/-- One Smart Tacho V2 event. -/
structure V2Event where
  timestamp : TimeVal
  event_type : String
  event_code : Nat
  description : String
deriving DecidableEq, Repr

/-- The `while` scan of `_parse_v2_events` for one marker. -/
def evtLoop (raw pat : Buffer) : Nat → Nat → List V2Event → List V2Event
  | 0, _, acc => acc
  | fuel + 1, pos, acc =>
    match bytesFind raw pat pos with
    | none => acc
    | some p =>
      let acc' :=
        if p + 30 < raw.length then
          let block := pySlice raw p (p + 30)
          let n := pat.length
          let ev : V2Event :=
            ⟨parse_v2_timestamp (pySlice block n (n + 4)),
             decode_v2_event_type (if n + 4 < block.length then pyGet block (n + 4) else 0xFF),
             (if n + 5 < block.length then pyGet block (n + 5) else 0),
             get_v2_event_description
               (if n + 4 < block.length then pyGet block (n + 4) else 0xFF)
               (if n + 5 < block.length then pyGet block (n + 5) else 0)⟩
          if ev.timestamp ≠ .na then acc ++ [ev] else acc
        else acc
      evtLoop raw pat fuel (p + 30) acc'

/-- `TachoParser._parse_v2_events`: markers `EVT:`, `EVENT:`, `E:` in order,
stop at the first marker that accumulated events; capped at 30. -/
def parse_v2_events (raw : Buffer) : List V2Event :=
  let e1 := evtLoop raw (strB "EVT:") (raw.length + 1) 0 []
  let e2 := if e1.isEmpty then evtLoop raw (strB "EVENT:") (raw.length + 1) 0 [] else e1
  let e3 := if e2.isEmpty then evtLoop raw (strB "E:") (raw.length + 1) 0 [] else e2
  e3.take 30

/-- One Smart Tacho V2 speed sample. -/
structure V2Speed where
  timestamp : TimeVal
  speed_kmh : Nat
  rpm : Nat
deriving DecidableEq, Repr

/-- The `while` scan of `_parse_v2_speeds` for one marker. -/
def spdLoop (raw pat : Buffer) : Nat → Nat → List V2Speed → List V2Speed
  | 0, _, acc => acc
  | fuel + 1, pos, acc =>
    match bytesFind raw pat pos with
    | none => acc
    | some p =>
      let acc' :=
        if p + 20 < raw.length then
          let block := pySlice raw p (p + 20)
          let n := pat.length
          if n + 8 ≤ block.length then
            let e : V2Speed :=
              ⟨parse_v2_timestamp (pySlice block n (n + 4)),
               (if n + 6 ≤ block.length then u16be (pySlice block (n + 4) (n + 6)) else 0),
               (if n + 8 ≤ block.length then u16be (pySlice block (n + 6) (n + 8)) else 0)⟩
            if e.timestamp ≠ .na ∧ e.speed_kmh < 200 then acc ++ [e] else acc
          else acc
        else acc
      spdLoop raw pat fuel (p + 20) acc'

/-- `TachoParser._parse_v2_speeds`: markers `SPD:`, `SPEED:`, `VEL:` in
order, stop at the first marker that accumulated samples; capped at 100. -/
def parse_v2_speeds (raw : Buffer) : List V2Speed :=
  let s1 := spdLoop raw (strB "SPD:") (raw.length + 1) 0 []
  let s2 := if s1.isEmpty then spdLoop raw (strB "SPEED:") (raw.length + 1) 0 [] else s1
  let s3 := if s2.isEmpty then spdLoop raw (strB "VEL:") (raw.length + 1) 0 [] else s2
  s3.take 100

/-- Rule 1 of the detector: the nine vendor marker substrings, checked
against the lowercased first 1000 bytes. -/
def v2MarkerListCheck (raw : Buffer) : Bool :=
  [strB "smart_tacho_v2", strB "vdo_smart", strB "stv2", strB "smart tacho",
   strB "tacho smart", strB "smarttacho", strB "continental vdo",
   strB "kienzle", strB "stoneridge se5000"].any
    (fun m => containsB (lowerB (pySlice raw 0 1000)) m)

/-- Rule 2 of the detector: `VDO` and `Smart` in the first 500 bytes,
case-sensitive. -/
def v2VdoSmartCheck (raw : Buffer) : Bool :=
  containsB (pySlice raw 0 500) (strB "VDO") &&
    containsB (pySlice raw 0 500) (strB "Smart")

/-- Rule 3 of the detector: magic prefixes or `SMART` within the first 20
bytes (only consulted when the buffer is longer than 100 bytes). -/
def v2HeaderBytesCheck (raw : Buffer) : Bool :=
  let header := pySlice raw 0 20
  pySlice header 0 4 == strB "STv2" || pySlice header 0 3 == strB "VDO" ||
    containsB header (strB "SMART")

/-- Rule 4: the `DDD` / `DDD\0` magic. -/
def dddCheck (raw : Buffer) : Bool :=
  pySlice raw 0 4 == strB "DDD" ++ [0] || pySlice raw 0 3 == strB "DDD"

/-- `TachoParser.detect_tacho_version`.  The computed-but-unused `data_str`
of the source is dropped; the `except` branch is dead (no body operation
raises on a bytes input). -/
def detect_tacho_version (raw : Buffer) : String :=
  if v2MarkerListCheck raw then "Smart Tacho V2"
  else if v2VdoSmartCheck raw then "Smart Tacho V2"
  else if decide (100 < raw.length) && v2HeaderBytesCheck raw then "Smart Tacho V2"
  else if dddCheck raw then "Standard EU"
  else if containsB (pySlice raw 0 100) (strB "EFAS") then "EFAS"
  else if containsB (pySlice raw 0 200) (strB "Stoneridge") then "Stoneridge"
  else if containsB (pySlice raw 0 200) (strB "Siemens VDO") then "Siemens VDO"
  else "Unknown"

/-- The six parsed groups, per format path. -/
inductive Sections where
  | std : StdHeader → CardData → VehicleData →
      List EUActivity → List EUEvent → List EUSpeed → Sections
  | v2 : V2Header → V2Driver → V2Vehicle →
      List V2Activity → List V2Event → List V2Speed → Sections
deriving DecidableEq, Repr

/-- The normalized result dictionary of `TachoParser.parse`. -/
structure ParseResult where
  format : String
  sections : Sections
deriving DecidableEq, Repr

/-- `TachoParser.parse_smart_tacho_v2` (its `except` branch is dead: every
sub-decoder is total). -/
def parse_smart_tacho_v2 (raw : Buffer) : ParseResult :=
  ⟨"Smart Tacho V2",
   .v2 (parse_v2_header raw) (parse_v2_driver_data raw) (parse_v2_vehicle_data raw)
     (parse_v2_activities raw) (parse_v2_events raw) (parse_v2_speeds raw)⟩

/-- `TachoParser.parse`: detect, dispatch, assemble one result. -/
def parse (raw : Buffer) : ParseResult :=
  let v := detect_tacho_version raw
  if v = "Smart Tacho V2" then parse_smart_tacho_v2 raw
  else
    ⟨v, .std (parse_header raw) (parse_card_data raw) (parse_vehicle_data raw)
      (parse_activities raw) (parse_events raw) (parse_speeds raw)⟩

/-- The closed activity-type enumeration of the spec:
{driving, work, available, rest, break, unknown}. -/
def typeClosed (s : String) : Bool :=
  s == "driving" || s == "work" || s == "available" || s == "rest" ||
  s == "break" || s == "unknown"

/-- The closed format enumeration of the spec. -/
def formatClosed (s : String) : Bool :=
  s == "Smart Tacho V2" || s == "Standard EU" || s == "EFAS" ||
  s == "Stoneridge" || s == "Siemens VDO" || s == "Unknown"

/-- Which structural variant a result carries. -/
def sectionsIsV2 : Sections → Bool
  | .v2 _ _ _ _ _ _ => true
  | .std _ _ _ _ _ _ => false

/-- Type-closure check on one Standard-EU activity entry (error markers
carry no type). -/
def euActivityTypeOk : EUActivity → Bool
  | .err _ => true
  | .record _ t _ _ => typeClosed t

/-- Is a Standard-EU event entry a decoded EventRecord? -/
def euEventIsRecord : EUEvent → Bool
  | .record _ _ _ _ => true
  | .info _ => false
  | .err _ => false

/-- Is a Standard-EU speed entry a decoded SpeedSample? -/
def euSpeedIsRecord : EUSpeed → Bool
  | .record _ _ _ => true
  | .info _ => false
  | .err _ => false

/-- What the claims require of every accepted V2 activity: a known
(non-`unknown`) type, a non-sentinel start, and a duration in `(0, 1440]`. -/
def v2ActivityValidOk (a : V2Activity) : Bool :=
  (a.activity_type == "driving" || a.activity_type == "work" ||
   a.activity_type == "available" || a.activity_type == "break" ||
   a.activity_type == "rest") &&
  !(a.start_time == TimeVal.na) &&
  decide (0 < a.duration) && decide (a.duration ≤ 1440)

/-- Invariant carried by every V2 activity candidate: closed type and
non-sentinel start time. -/
def candOk (a : V2Activity) : Bool :=
  typeClosed a.activity_type && !(a.start_time == TimeVal.na)

/-- What the claims require of every V2 speed sample. -/
def v2SpeedOk (e : V2Speed) : Bool :=
  !(e.timestamp == TimeVal.na) && decide (e.speed_kmh < 200)

/-- Creation-time accessor of a Standard-EU header. -/
def headerCreation : StdHeader → TimeVal
  | .err _ => .na
  | .ok _ _ t _ _ => t

/-- The Standard-EU header of a result, if on the standard path. -/
def stdHeaderOf : Sections → Option StdHeader
  | .std h _ _ _ _ _ => some h
  | .v2 _ _ _ _ _ _ => none

/-- The Standard-EU events of a result, if on the standard path. -/
def sectionsEvents : Sections → Option (List EUEvent)
  | .std _ _ _ _ e _ => some e
  | .v2 _ _ _ _ _ _ => none

/-- The Standard-EU speeds of a result, if on the standard path. -/
def sectionsSpeeds : Sections → Option (List EUSpeed)
  | .std _ _ _ _ _ s => some s
  | .v2 _ _ _ _ _ _ => none

/-- The spec's description of `_parse_v2_timestamp` minus its third
(little-endian) interpretation; per C10 that branch is unreachable, making
this extensionally equal to `parse_v2_timestamp`. -/
def parse_v2_timestamp_first_two (data : Buffer) : TimeVal :=
  if 4 ≤ data.length then
    let ts := u32be (data.take 4)
    if 946684800 < ts then .dt (fromtimestampUTC ts)
    else .dt (fromtimestampUTC (ts + 946684800))
  else .na

/-- `evtLoop` with the `timestamp != "N/A"` filter removed; per C10 the
filter never rejects, making the scans extensionally equal. -/
def evtLoopAll (raw pat : Buffer) : Nat → Nat → List V2Event → List V2Event
  | 0, _, acc => acc
  | fuel + 1, pos, acc =>
    match bytesFind raw pat pos with
    | none => acc
    | some p =>
      let acc' :=
        if p + 30 < raw.length then
          let block := pySlice raw p (p + 30)
          let n := pat.length
          let ev : V2Event :=
            ⟨parse_v2_timestamp (pySlice block n (n + 4)),
             decode_v2_event_type (if n + 4 < block.length then pyGet block (n + 4) else 0xFF),
             (if n + 5 < block.length then pyGet block (n + 5) else 0),
             get_v2_event_description
               (if n + 4 < block.length then pyGet block (n + 4) else 0xFF)
               (if n + 5 < block.length then pyGet block (n + 5) else 0)⟩
          acc ++ [ev]
        else acc
      evtLoopAll raw pat fuel (p + 30) acc'

/-- `_parse_v2_events` without the timestamp filter (C10 variant). -/
def parse_v2_events_nofilter (raw : Buffer) : List V2Event :=
  let e1 := evtLoopAll raw (strB "EVT:") (raw.length + 1) 0 []
  let e2 := if e1.isEmpty then evtLoopAll raw (strB "EVENT:") (raw.length + 1) 0 [] else e1
  let e3 := if e2.isEmpty then evtLoopAll raw (strB "E:") (raw.length + 1) 0 [] else e2
  e3.take 30

/-- `spdLoop` with the timestamp half of the filter removed; per C10 only
the `speed < 200` half can reject. -/
def spdLoopNoTs (raw pat : Buffer) : Nat → Nat → List V2Speed → List V2Speed
  | 0, _, acc => acc
  | fuel + 1, pos, acc =>
    match bytesFind raw pat pos with
    | none => acc
    | some p =>
      let acc' :=
        if p + 20 < raw.length then
          let block := pySlice raw p (p + 20)
          let n := pat.length
          if n + 8 ≤ block.length then
            let e : V2Speed :=
              ⟨parse_v2_timestamp (pySlice block n (n + 4)),
               (if n + 6 ≤ block.length then u16be (pySlice block (n + 4) (n + 6)) else 0),
               (if n + 8 ≤ block.length then u16be (pySlice block (n + 6) (n + 8)) else 0)⟩
            if e.speed_kmh < 200 then acc ++ [e] else acc
          else acc
        else acc
      spdLoopNoTs raw pat fuel (p + 20) acc'

/-- `_parse_v2_speeds` with only the speed filter (C10 variant). -/
def parse_v2_speeds_nots (raw : Buffer) : List V2Speed :=
  let s1 := spdLoopNoTs raw (strB "SPD:") (raw.length + 1) 0 []
  let s2 := if s1.isEmpty then spdLoopNoTs raw (strB "SPEED:") (raw.length + 1) 0 [] else s1
  let s3 := if s2.isEmpty then spdLoopNoTs raw (strB "VEL:") (raw.length + 1) 0 [] else s2
  s3.take 100

/-- `_validate_v2_activity` minus the start-time check (C10 variant: the
check never fires on candidates). -/
def validate_v2_activity_nostart (a : V2Activity) : Bool :=
  if a.activity_type == "unknown" then false
  else if a.duration ≤ 0 || 1440 < a.duration then false
  else true

/-- `_parse_v2_activities` with the start-time check dropped from the
validation (C10 variant). -/
def parse_v2_activities_nostart (raw : Buffer) : List V2Activity :=
  ((v2ActivityCandidates raw).take 50).filter validate_v2_activity_nostart

/-- A 20-byte Standard-EU buffer whose header creation-time bytes decode to
Unix second 1 (1970). -/
def demoC5buf : Buffer := [68, 68, 68, 0, 0, 1, 0, 0, 0, 1] ++ List.replicate 10 0

/-- A Standard-EU buffer containing the events tag `05 03` and the speeds
tag `05 04`, each followed by plausible event/speed bytes. -/
def demoTagBuf : Buffer :=
  [68, 68, 68, 0] ++ [5, 3] ++ [60, 0, 0, 0, 1, 2] ++ [5, 4] ++
    [60, 0, 0, 0, 0, 80] ++ List.replicate 10 0

/-- A Smart-Tacho-V2 activity block: `ACT:`, start and end timestamps, the
driving code `0x10`, duration 60, padding past the 50-byte block. -/
def demoActBuf : Buffer :=
  strB "ACT:" ++ [60, 0, 0, 0] ++ [60, 0, 0, 1] ++ [0x10] ++ [0, 60] ++
    List.replicate 40 0

/-- A Smart-Tacho-V2 speed block: `SPD:`, a timestamp, 80 km/h, 0 rpm. -/
def demoSpdBuf : Buffer :=
  strB "SPD:" ++ [60, 0, 0, 0] ++ [0, 80] ++ [0, 0] ++ List.replicate 10 0

/-- A Smart-Tacho-V2 event block: `EVT:`, a timestamp, type 1, code 2. -/
def demoEvtBuf : Buffer :=
  strB "EVT:" ++ [60, 0, 0, 0] ++ [1] ++ [2] ++ List.replicate 21 0

/-- A Standard-EU buffer with one well-formed activity record (BCD start
2024-05-15 08:30, code 3 = driving, duration 90). -/
def demoEUActBuf : Buffer :=
  [68, 68, 68, 0] ++ [5, 2] ++ [0, 0] ++ [0, 1] ++ [0x24, 0x05, 0x15, 0x83] ++
    [3] ++ [0, 90] ++ [0]

/-- A 101-byte buffer starting with the `VDO` magic and matching no
higher-priority detector rule. -/
def demoVdo101 : Buffer := strB "VDO" ++ List.replicate 98 0

/-- CPython's constraint on a `b`/`rb` bytes literal: every character
between the quotes must be ASCII ("bytes can only contain ASCII literal
characters"); a literal violating it is a `SyntaxError` at import, before
any code of the module can run. -/
def pythonBytesLiteralOk (l : Buffer) : Bool := l.all (· < 128)

/-- The source text of the first driver-name pattern literal,
`rb'NAME:([A-ZĄĆĘŁŃÓŚŹŻ\s]\x7b2,40\x7d)'` (tacho_parser.py line 222), as
the UTF-8 byte sequence the lexer reads: each Polish letter is two bytes
above 0x7F (0xC4 0x84 for Ą, …, 0xC5 0xBB for Ż, verified against the
file's bytes). -/
def driverNamePatternBytes : Buffer :=
  strB "NAME:([A-Z" ++
  [0xC4, 0x84, 0xC4, 0x86, 0xC4, 0x98, 0xC5, 0x81, 0xC5, 0x83,
   0xC3, 0x93, 0xC5, 0x9A, 0xC5, 0xB9, 0xC5, 0xBB] ++
  strB "\\s]" ++ [0x7B] ++ strB "2,40" ++ [0x7D] ++ strB ")"

/-- Slice index resolution on a nonnegative index. -/
theorem pyIdx_nonneg (n : Nat) (i : Int) (h : 0 ≤ i) :
    pyIdx n i = min i.toNat n := by
  unfold pyIdx
  rw [if_neg (by omega)]

/-- Length of an in-range Python slice. -/
theorem pySlice_length (raw : Buffer) (a b : Int) (h0 : 0 ≤ a) (hab : a ≤ b)
    (hb : b ≤ (raw.length : Int)) :
    (pySlice raw a b).length = (b - a).toNat := by
  unfold pySlice
  rw [pyIdx_nonneg _ _ h0, pyIdx_nonneg _ _ (by omega)]
  simp only [List.length_take, List.length_drop]
  omega

/-- A Python slice with natural-number endpoints is a drop-then-take. -/
theorem pySlice_ofNat (raw : Buffer) (a b : Nat) :
    pySlice raw (a : Int) (b : Int) = (raw.drop a).take (b - a) := by
  unfold pySlice
  rw [pyIdx_nonneg _ _ (by omega), pyIdx_nonneg _ _ (by omega)]
  simp only [Int.toNat_ofNat]
  rcases le_or_lt a raw.length with h | h
  · rw [min_eq_left h]
    rcases le_or_lt b raw.length with h2 | h2
    · rw [min_eq_left h2]
    · rw [min_eq_right h2.le, List.take_of_length_le, List.take_of_length_le] <;>
        simp only [List.length_drop] <;> omega
  · rw [min_eq_right h.le]
    have h1 : raw.drop raw.length = [] := by simp
    have h2 : raw.drop a = [] := List.drop_eq_nil_of_le h.le
    rw [h1, h2]
    simp

/-- The closed type enumeration holds for every Smart V2 code byte. -/
theorem typeClosed_decode_v2 (b : Nat) : typeClosed (decode_v2_activity_type b) = true := by
  unfold decode_v2_activity_type SMART_V2_ACTIVITY_TYPES
  split_ifs <;> decide

/-- The closed type enumeration holds for every Standard EU code byte. -/
theorem typeClosed_activityTypesGet (b : Nat) : typeClosed (activityTypesGet b) = true := by
  unfold activityTypesGet ACTIVITY_TYPES
  split_ifs <;> decide

/-- Any 4-byte (or longer) input decodes to a non-sentinel V2 timestamp:
when the first interpretation is skipped, the second is below the overflow
bound by arithmetic. -/
theorem parse_v2_timestamp_ne_na (data : Buffer) (h : 4 ≤ data.length) :
    parse_v2_timestamp data ≠ TimeVal.na := by
  by_cases h1 : 946684800 < u32be (data.take 4)
  · simp [parse_v2_timestamp, h, h1]
  · have h2 : u32be (data.take 4) + 946684800 < 2147483647 := by omega
    simp [parse_v2_timestamp, h, h1, h2]

/-- The little-endian third interpretation is unreachable. -/
theorem parse_v2_timestamp_eq_first_two (data : Buffer) :
    parse_v2_timestamp data = parse_v2_timestamp_first_two data := by
  by_cases h : 4 ≤ data.length
  · by_cases h1 : 946684800 < u32be (data.take 4)
    · simp [parse_v2_timestamp, parse_v2_timestamp_first_two, h, h1]
    · have h2 : u32be (data.take 4) + 946684800 < 2147483647 := by omega
      simp [parse_v2_timestamp, parse_v2_timestamp_first_two, h, h1, h2]
  · simp [parse_v2_timestamp, parse_v2_timestamp_first_two, h]

/-- The timestamp filter of the events scan never rejects: the event block
has 30 bytes, so the timestamp slice has the full 4 bytes. -/
theorem evtLoop_eq_all (raw pat : Buffer) (hpat : pat.length + 4 ≤ 30) :
    ∀ fuel pos acc, evtLoop raw pat fuel pos acc = evtLoopAll raw pat fuel pos acc := by
  intro fuel
  induction fuel with
  | zero => intro pos acc; rfl
  | succ n ih =>
    intro pos acc
    simp only [evtLoop, evtLoopAll]
    cases hfind : bytesFind raw pat pos with
    | none => rfl
    | some p =>
      by_cases hp : p + 30 < raw.length
      · have hblock : (pySlice raw (p : Int) ((p : Int) + 30)).length = 30 := by
          rw [pySlice_length raw _ _ (by omega) (by omega) (by omega)]
          omega
        have hts : parse_v2_timestamp
            (pySlice (pySlice raw (p : Int) ((p : Int) + 30))
              (pat.length : Int) ((pat.length : Int) + 4)) ≠ TimeVal.na := by
          apply parse_v2_timestamp_ne_na
          rw [pySlice_length _ _ _ (by omega) (by omega) (by rw [hblock]; omega)]
          omega
        simp only [hp, if_true]
        simp [hts]
        exact ih _ _
      · simp only [hp, if_false]
        exact ih _ _

/-- The timestamp half of the speed filter never rejects. -/
theorem spdLoop_eq_noTs (raw pat : Buffer) (hpat : pat.length + 8 ≤ 20) :
    ∀ fuel pos acc, spdLoop raw pat fuel pos acc = spdLoopNoTs raw pat fuel pos acc := by
  intro fuel
  induction fuel with
  | zero => intro pos acc; rfl
  | succ n ih =>
    intro pos acc
    simp only [spdLoop, spdLoopNoTs]
    cases hfind : bytesFind raw pat pos with
    | none => rfl
    | some p =>
      by_cases hp : p + 20 < raw.length
      · have hblock : (pySlice raw (p : Int) ((p : Int) + 20)).length = 20 := by
          rw [pySlice_length raw _ _ (by omega) (by omega) (by omega)]
          omega
        have hts : parse_v2_timestamp
            (pySlice (pySlice raw (p : Int) ((p : Int) + 20))
              (pat.length : Int) ((pat.length : Int) + 4)) ≠ TimeVal.na := by
          apply parse_v2_timestamp_ne_na
          rw [pySlice_length _ _ _ (by omega) (by omega) (by rw [hblock]; omega)]
          omega
        simp [hp, hblock, hpat, hts]
        exact ih _ _
      · simp [hp]
        exact ih _ _

/-- Every activity produced by `_parse_single_v2_activity` has a closed type
and a non-sentinel start time (the 16-byte bound makes the timestamp slice
full-width). -/
theorem parse_single_candOk (block pat : Buffer) (a : V2Activity)
    (h : parse_single_v2_activity block pat = some a) : candOk a = true := by
  simp only [parse_single_v2_activity] at h
  by_cases h1 : block.length < pat.length + 16
  · rw [if_pos h1] at h
    simp at h
  · rw [if_neg h1] at h
    have hts : parse_v2_timestamp
        (pySlice block (pat.length : Int) ((pat.length : Int) + 4)) ≠ TimeVal.na := by
      apply parse_v2_timestamp_ne_na
      rw [pySlice_length _ _ _ (by omega) (by omega) (by omega)]
      omega
    by_cases h2 : (pat == strB "ACT:") = true
    · rw [if_pos h2] at h
      injection h with h3
      subst h3
      simp [candOk, typeClosed_decode_v2, hts]
    · rw [if_neg h2] at h
      injection h with h3
      subst h3
      simp [candOk, typeClosed_decode_v2, hts]

/-- Every activity accepted by a binary layout has a closed type and a
non-sentinel start time (its own plausibility check enforces both). -/
theorem tryLayout_candOk (block : Buffer) (atp tp dp : Nat) (a : V2Activity)
    (h : tryLayout block atp tp dp = some a) : candOk a = true := by
  simp only [tryLayout] at h
  by_cases h1 : atp < block.length ∧ tp + 4 ≤ block.length ∧ dp + 2 ≤ block.length
  · rw [if_pos h1] at h
    by_cases h2 : decode_v2_activity_type (block.getD atp 0) ≠ "unknown" ∧
        parse_v2_timestamp (pySlice block (tp : Int) ((tp : Int) + 4)) ≠ TimeVal.na ∧
        0 < u16be (pySlice block (dp : Int) ((dp : Int) + 2)) ∧
        u16be (pySlice block (dp : Int) ((dp : Int) + 2)) < 1440
    · rw [if_pos h2] at h
      injection h with h3
      subst h3
      simp [candOk, typeClosed_decode_v2, h2.2.1]
    · rw [if_neg h2] at h
      simp at h
  · rw [if_neg h1] at h
    simp at h

/-- Layout-cascade version of the previous lemma. -/
theorem parse_binary_candOk (block : Buffer) (a : V2Activity)
    (h : parse_binary_activity_block block = some a) : candOk a = true := by
  unfold parse_binary_activity_block at h
  cases h1 : tryLayout block 0 1 5 with
  | some a0 =>
    rw [h1] at h
    injection h with h2
    subst h2
    exact tryLayout_candOk _ _ _ _ _ h1
  | none =>
    rw [h1] at h
    cases h2 : tryLayout block 4 0 8 with
    | some a0 =>
      rw [h2] at h
      injection h with h3
      subst h3
      exact tryLayout_candOk _ _ _ _ _ h2
    | none =>
      rw [h2] at h
      exact tryLayout_candOk _ _ _ _ _ h

/-- The marker scan preserves the candidate invariant. -/
theorem actPatLoop_candOk (raw pat : Buffer) (bs : Nat) :
    ∀ fuel pos acc, (∀ x ∈ acc, candOk x = true) →
      ∀ a ∈ actPatLoop raw pat bs fuel pos acc, candOk a = true := by
  intro fuel
  induction fuel with
  | zero => intro pos acc hacc a ha; exact hacc a ha
  | succ n ih =>
    intro pos acc hacc a ha
    simp only [actPatLoop] at ha
    cases hfind : bytesFind raw pat pos with
    | none => rw [hfind] at ha; exact hacc a ha
    | some p =>
      rw [hfind] at ha
      refine ih _ _ ?_ a ha
      intro x hx
      by_cases hp : p + bs < raw.length
      · rw [if_pos hp] at hx
        cases hsingle : parse_single_v2_activity (pySlice raw (p : Int) ((p : Int) + bs)) pat with
        | some a0 =>
          rw [hsingle] at hx
          rcases List.mem_append.mp hx with hx1 | hx2
          · exact hacc x hx1
          · rw [List.mem_singleton] at hx2
            subst hx2
            exact parse_single_candOk _ _ _ hsingle
        | none => rw [hsingle] at hx; exact hacc x hx
      · rw [if_neg hp] at hx
        exact hacc x hx

/-- The binary window scan preserves the candidate invariant. -/
theorem binActLoop_candOk (raw : Buffer) (stop : Nat) :
    ∀ fuel i acc, (∀ x ∈ acc, candOk x = true) →
      ∀ a ∈ binActLoop raw stop fuel i acc, candOk a = true := by
  intro fuel
  induction fuel with
  | zero => intro i acc hacc a ha; exact hacc a ha
  | succ n ih =>
    intro i acc hacc a ha
    simp only [binActLoop] at ha
    by_cases hi : i < stop
    · rw [if_pos hi] at ha
      by_cases hl : looks_like_v2_activity_block (pySlice raw (i : Int) ((i : Int) + 16)) = true
      · rw [if_pos hl] at ha
        cases hb : parse_binary_activity_block (pySlice raw (i : Int) ((i : Int) + 16)) with
        | some a0 =>
          rw [hb] at ha
          have hacc2 : ∀ x ∈ acc ++ [a0], candOk x = true := by
            intro x hx
            rcases List.mem_append.mp hx with h1 | h2
            · exact hacc x h1
            · rw [List.mem_singleton] at h2
              subst h2
              exact parse_binary_candOk _ _ hb
          by_cases h30 : 30 ≤ (acc ++ [a0]).length
          · rw [if_pos h30] at ha; exact hacc2 a ha
          · rw [if_neg h30] at ha; exact ih _ _ hacc2 a ha
        | none =>
          rw [hb] at ha
          by_cases h30 : 30 ≤ acc.length
          · rw [if_pos h30] at ha; exact hacc a ha
          · rw [if_neg h30] at ha; exact ih _ _ hacc a ha
      · rw [if_neg hl] at ha
        by_cases h30 : 30 ≤ acc.length
        · rw [if_pos h30] at ha; exact hacc a ha
        · rw [if_neg h30] at ha; exact ih _ _ hacc a ha
    · rw [if_neg hi] at ha
      exact hacc a ha

/-- Membership in the first nonempty list comes from one of the lists. -/
theorem firstNonEmptyList_mem {α : Type} (L : List (List α)) (a : α)
    (h : a ∈ firstNonEmptyList L) : ∃ l ∈ L, a ∈ l := by
  induction L with
  | nil => simp [firstNonEmptyList] at h
  | cons l rest ih =>
    by_cases he : l.isEmpty
    · rw [firstNonEmptyList, if_pos he] at h
      obtain ⟨l2, hl2, ha2⟩ := ih h
      exact ⟨l2, List.mem_cons_of_mem _ hl2, ha2⟩
    · rw [firstNonEmptyList, if_neg he] at h
      exact ⟨l, List.mem_cons_self _ _, h⟩

/-- Every Smart V2 activity candidate has a closed type and a non-sentinel
start time, on both the marker path and the binary fallback. -/
theorem v2ActivityCandidates_candOk (raw : Buffer) :
    ∀ a ∈ v2ActivityCandidates raw, candOk a = true := by
  intro a ha
  simp only [v2ActivityCandidates] at ha
  by_cases hempty : (firstNonEmptyList
      [parse_activities_by_pattern raw (strB "ACT:"),
       parse_activities_by_pattern raw (strB "ACTIVITY:"),
       parse_activities_by_pattern raw (strB "ACTV:"),
       parse_activities_by_pattern raw (strB "A:")]).isEmpty = true
  · rw [if_pos hempty] at ha
    unfold parse_v2_binary_activities at ha
    by_cases h16 : raw.length < 16
    · rw [if_pos h16] at ha; simp at ha
    · rw [if_neg h16] at ha
      exact binActLoop_candOk raw _ _ _ _ (by simp) a ha
  · rw [if_neg hempty] at ha
    obtain ⟨l, hl, hal⟩ := firstNonEmptyList_mem _ _ ha
    simp only [List.mem_cons, List.not_mem_nil, or_false] at hl
    rcases hl with h | h | h | h <;>
      (subst h; simp only [parse_activities_by_pattern] at hal;
       exact actPatLoop_candOk _ _ _ _ _ _ (by simp) a hal)

/-- Characterization of `_validate_v2_activity`. -/
theorem validate_v2_activity_iff (a : V2Activity) :
    validate_v2_activity a = true ↔
      a.activity_type ≠ "unknown" ∧ a.start_time ≠ TimeVal.na ∧
      0 < a.duration ∧ a.duration ≤ 1440 := by
  unfold validate_v2_activity
  split_ifs with h1 h2 h3 <;> simp_all <;> omega

/-- On a candidate with non-sentinel start, the full validation and the
start-less validation agree. -/
theorem validate_eq_nostart (a : V2Activity)
    (hs : (a.start_time == TimeVal.na) = false) :
    validate_v2_activity a = validate_v2_activity_nostart a := by
  unfold validate_v2_activity validate_v2_activity_nostart
  simp [hs]

/-- The start-time check of the V2 activity validation never fires. -/
theorem parse_v2_activities_eq_nostart (raw : Buffer) :
    parse_v2_activities raw = parse_v2_activities_nostart raw := by
  unfold parse_v2_activities parse_v2_activities_nostart
  apply List.filter_congr
  intro a ha
  have hc := v2ActivityCandidates_candOk raw a (List.mem_of_mem_take ha)
  simp only [candOk, Bool.and_eq_true, Bool.not_eq_true'] at hc
  exact validate_eq_nostart a hc.2

/-- C10: the Smart Tacho V2 timestamp decoder is total on 4-byte input —
when the big-endian u32 is at most 946684800 the offset interpretation is
below 2147483647 by arithmetic, so the decoder never returns the sentinel,
the little-endian third interpretation is unreachable, and the
timestamp-based validity filters on the V2 activity, event and speed paths
never reject a candidate. -/
theorem c10_v2_timestamp_total_and_filters_vacuous :
    (∀ data : Buffer, 4 ≤ data.length → parse_v2_timestamp data ≠ TimeVal.na) ∧
    (∀ data : Buffer, parse_v2_timestamp data = parse_v2_timestamp_first_two data) ∧
    (∀ raw : Buffer, parse_v2_events raw = parse_v2_events_nofilter raw) ∧
    (∀ raw : Buffer, parse_v2_speeds raw = parse_v2_speeds_nots raw) ∧
    (∀ raw : Buffer, parse_v2_activities raw = parse_v2_activities_nostart raw) := by
  refine ⟨parse_v2_timestamp_ne_na, parse_v2_timestamp_eq_first_two, ?_, ?_,
    parse_v2_activities_eq_nostart⟩
  · intro raw
    unfold parse_v2_events parse_v2_events_nofilter
    rw [evtLoop_eq_all raw (strB "EVT:") (by decide),
        evtLoop_eq_all raw (strB "EVENT:") (by decide),
        evtLoop_eq_all raw (strB "E:") (by decide)]
  · intro raw
    unfold parse_v2_speeds parse_v2_speeds_nots
    rw [spdLoop_eq_noTs raw (strB "SPD:") (by decide),
        spdLoop_eq_noTs raw (strB "SPEED:") (by decide),
        spdLoop_eq_noTs raw (strB "VEL:") (by decide)]

/-- C10 witness: the all-zero 4-byte field decodes to a non-sentinel
timestamp. -/
theorem c10_witness : parse_v2_timestamp [0, 0, 0, 0] ≠ TimeVal.na :=
  c10_v2_timestamp_total_and_filters_vacuous.1 [0, 0, 0, 0] (by decide)

/-- C7: every activity returned by the Smart Tacho V2 activities decoder
passed validation — known (non-`unknown`) type, non-sentinel start time,
duration in `(0, 1440]` — and the sequence is capped at 50 entries;
failing candidates are dropped by the filter, never replaced. -/
theorem c7_v2_activities_validated (raw : Buffer) :
    (parse_v2_activities raw).length ≤ 50 ∧
    ∀ a ∈ parse_v2_activities raw, v2ActivityValidOk a = true := by
  constructor
  · unfold parse_v2_activities
    exact le_trans (List.length_filter_le _ _) (List.length_take_le _ _)
  · intro a ha
    unfold parse_v2_activities at ha
    have hmem := List.mem_filter.mp ha
    have hval := (validate_v2_activity_iff a).mp hmem.2
    have hcand := v2ActivityCandidates_candOk raw a (List.mem_of_mem_take hmem.1)
    simp only [candOk, typeClosed, Bool.and_eq_true, Bool.or_eq_true,
      Bool.not_eq_true', beq_iff_eq] at hcand
    obtain ⟨ht, hs, hd1, hd2⟩ := hval
    simp only [v2ActivityValidOk, Bool.and_eq_true, Bool.or_eq_true, beq_iff_eq,
      Bool.not_eq_true', decide_eq_true_eq]
    refine ⟨⟨⟨?_, ?_⟩, hd1⟩, hd2⟩
    · have hor := hcand.1
      tauto
    · simp [hs]

/-- C7 witness: a concrete `ACT:` buffer yields exactly the validated
driving activity below. -/
theorem c7_witness :
    v2ActivityValidOk
      { start_time := TimeVal.dt ⟨2001, 11, 24, 20, 16, 0⟩,
        end_time := TimeVal.dt ⟨2001, 11, 24, 20, 16, 1⟩,
        activity_type := "driving", duration := 60 } = true :=
  (c7_v2_activities_validated demoActBuf).2 _ (by decide)

/-- The Standard-EU record loop only appends records whose type comes from
the fixed code table. -/
theorem euActivityLoop_typeOk (raw : Buffer) :
    ∀ n offset acc, (∀ x ∈ acc, euActivityTypeOk x = true) →
      ∀ a ∈ euActivityLoop raw n offset acc, euActivityTypeOk a = true := by
  intro n
  induction n with
  | zero => intro offset acc hacc a ha; exact hacc a ha
  | succ k ih =>
    intro offset acc hacc a ha
    simp only [euActivityLoop] at ha
    by_cases hb : (raw.length : Int) < offset + 8
    · rw [if_pos hb] at ha
      exact hacc a ha
    · rw [if_neg hb] at ha
      refine ih _ _ ?_ a ha
      intro x hx
      rcases List.mem_append.mp hx with h1 | h2
      · exact hacc x h1
      · rw [List.mem_singleton] at h2
        subst h2
        simp [euActivityTypeOk, typeClosed_activityTypesGet]

/-- Every entry of the Standard-EU activities result is an error marker or a
record with a table type. -/
theorem parse_activities_typeOk (raw : Buffer) :
    ∀ a ∈ parse_activities raw, euActivityTypeOk a = true := by
  intro a ha
  simp only [parse_activities] at ha
  by_cases h1 : find_section raw [5, 2] = 0
  · rw [if_pos h1] at ha
    simp at ha
    subst ha
    rfl
  · rw [if_neg h1] at ha
    by_cases h2 : (raw.length : Int) < find_section raw [5, 2] + 4 + 2
    · rw [if_pos h2] at ha
      simp at ha
      subst ha
      rfl
    · rw [if_neg h2] at ha
      exact euActivityLoop_typeOk raw _ _ _ (by simp) a ha

/-- C8: on both decode paths the activity type is drawn from the format's
fixed code table with default `unknown`, so it always lies in the closed
enumeration {driving, work, available, rest, break, unknown}, and any code
byte outside the table maps to `unknown`. -/
theorem c8_activity_type_closure :
    (∀ b : Nat, typeClosed (activityTypesGet b) = true ∧
      typeClosed (decode_v2_activity_type b) = true ∧
      (ACTIVITY_TYPES b = none → activityTypesGet b = "unknown") ∧
      (SMART_V2_ACTIVITY_TYPES b = none → decode_v2_activity_type b = "unknown")) ∧
    (∀ raw : Buffer, ∀ a ∈ parse_activities raw, euActivityTypeOk a = true) ∧
    (∀ raw : Buffer, ∀ a ∈ parse_v2_activities raw, typeClosed a.activity_type = true) := by
  refine ⟨?_, parse_activities_typeOk, ?_⟩
  · intro b
    refine ⟨typeClosed_activityTypesGet b, typeClosed_decode_v2 b, ?_, ?_⟩
    · intro h
      unfold activityTypesGet
      rw [h]
      rfl
    · intro h
      unfold decode_v2_activity_type
      rw [h]
      rfl
  · intro raw a ha
    unfold parse_v2_activities at ha
    have hmem := List.mem_filter.mp ha
    have hcand := v2ActivityCandidates_candOk raw a (List.mem_of_mem_take hmem.1)
    simp only [candOk, Bool.and_eq_true] at hcand
    exact hcand.1

/-- C8 witness: an unmapped code byte resolves to `unknown` in both tables,
and a concrete Standard-EU buffer yields a record with a closed type. -/
theorem c8_witness :
    activityTypesGet 7 = "unknown" ∧ decode_v2_activity_type 7 = "unknown" ∧
    euActivityTypeOk (EUActivity.record (TimeVal.dt ⟨2024, 5, 15, 8, 30, 0⟩)
      "driving" 90 LocVal.na) = true := by
  refine ⟨(c8_activity_type_closure.1 7).2.2.1 (by decide),
    (c8_activity_type_closure.1 7).2.2.2 (by decide), ?_⟩
  exact c8_activity_type_closure.2.1 demoEUActBuf _ (by decide)

/-- The speed scan only appends samples passing its filter. -/
theorem spdLoop_speedOk (raw pat : Buffer) :
    ∀ fuel pos acc, (∀ x ∈ acc, v2SpeedOk x = true) →
      ∀ e ∈ spdLoop raw pat fuel pos acc, v2SpeedOk e = true := by
  intro fuel
  induction fuel with
  | zero => intro pos acc hacc e he; exact hacc e he
  | succ n ih =>
    intro pos acc hacc e he
    simp only [spdLoop] at he
    cases hfind : bytesFind raw pat pos with
    | none => rw [hfind] at he; exact hacc e he
    | some p =>
      rw [hfind] at he
      refine ih _ _ ?_ e he
      intro x hx
      by_cases hp : p + 20 < raw.length
      · rw [if_pos hp] at hx
        by_cases h8 : pat.length + 8 ≤ (pySlice raw (p : Int) ((p : Int) + 20)).length
        · rw [if_pos h8] at hx
          by_cases hc : parse_v2_timestamp
                (pySlice (pySlice raw (p : Int) ((p : Int) + 20))
                  (pat.length : Int) ((pat.length : Int) + 4)) ≠ TimeVal.na ∧
              (if pat.length + 6 ≤ (pySlice raw (p : Int) ((p : Int) + 20)).length then
                u16be (pySlice (pySlice raw (p : Int) ((p : Int) + 20))
                  ((pat.length : Int) + 4) ((pat.length : Int) + 6)) else 0) < 200
          · rw [if_pos hc] at hx
            rcases List.mem_append.mp hx with h1 | h2
            · exact hacc x h1
            · rw [List.mem_singleton] at h2
              subst h2
              simp only [v2SpeedOk, Bool.and_eq_true, Bool.not_eq_true',
                decide_eq_true_eq]
              exact ⟨by simp [hc.1], hc.2⟩
          · rw [if_neg hc] at hx
            exact hacc x hx
        · rw [if_neg h8] at hx
          exact hacc x hx
      · rw [if_neg hp] at hx
        exact hacc x hx

/-- C9: Smart Tacho V2 speed samples all carry a non-sentinel timestamp and
a speed strictly below 200; the speeds result is capped at 100 and the
events result at 30; and the first marker whose scan accumulated anything
is the one the capped result is taken from. -/
theorem c9_v2_speeds_events_caps (raw : Buffer) :
    (parse_v2_speeds raw).length ≤ 100 ∧
    (∀ e ∈ parse_v2_speeds raw, v2SpeedOk e = true) ∧
    (parse_v2_events raw).length ≤ 30 ∧
    (spdLoop raw (strB "SPD:") (raw.length + 1) 0 [] ≠ [] →
      parse_v2_speeds raw = (spdLoop raw (strB "SPD:") (raw.length + 1) 0 []).take 100) ∧
    (spdLoop raw (strB "SPD:") (raw.length + 1) 0 [] = [] →
      spdLoop raw (strB "SPEED:") (raw.length + 1) 0 [] ≠ [] →
      parse_v2_speeds raw = (spdLoop raw (strB "SPEED:") (raw.length + 1) 0 []).take 100) ∧
    (evtLoop raw (strB "EVT:") (raw.length + 1) 0 [] ≠ [] →
      parse_v2_events raw = (evtLoop raw (strB "EVT:") (raw.length + 1) 0 []).take 30) := by
  refine ⟨?_, ?_, ?_, ?_, ?_, ?_⟩
  · unfold parse_v2_speeds
    exact List.length_take_le _ _
  · intro e he
    simp only [parse_v2_speeds] at he
    have he2 := List.mem_of_mem_take he
    by_cases h1 : (spdLoop raw (strB "SPD:") (raw.length + 1) 0 []).isEmpty
    · rw [if_pos h1] at he2
      by_cases h2 : (spdLoop raw (strB "SPEED:") (raw.length + 1) 0 []).isEmpty
      · rw [if_pos h2] at he2
        exact spdLoop_speedOk raw _ _ _ _ (by simp) e he2
      · rw [if_neg h2] at he2
        exact spdLoop_speedOk raw _ _ _ _ (by simp) e he2
    · have h2 : ((spdLoop raw (strB "SPD:") (raw.length + 1) 0 []).isEmpty) = false := by
        simpa using h1
      simp [h2] at he2
      exact spdLoop_speedOk raw _ _ _ _ (by simp) e he2
  · unfold parse_v2_events
    exact List.length_take_le _ _
  · intro hne
    have h1 : ((spdLoop raw (strB "SPD:") (raw.length + 1) 0 []).isEmpty) = false := by
      simpa using hne
    simp [parse_v2_speeds, h1]
  · intro he hne
    have h1 : ((spdLoop raw (strB "SPD:") (raw.length + 1) 0 []).isEmpty) = true := by
      simpa using he
    have h2 : ((spdLoop raw (strB "SPEED:") (raw.length + 1) 0 []).isEmpty) = false := by
      simpa using hne
    simp [parse_v2_speeds, h1, h2]
  · intro hne
    have h1 : ((evtLoop raw (strB "EVT:") (raw.length + 1) 0 []).isEmpty) = false := by
      simpa using hne
    simp [parse_v2_events, h1]

/-- C9 witness: a concrete `SPD:` buffer exercises both the cap equation and
the per-sample filter. -/
theorem c9_witness :
    parse_v2_speeds demoSpdBuf =
      (spdLoop demoSpdBuf (strB "SPD:") (demoSpdBuf.length + 1) 0 []).take 100 ∧
    v2SpeedOk ⟨TimeVal.dt ⟨2001, 11, 24, 20, 16, 0⟩, 80, 0⟩ = true := by
  refine ⟨(c9_v2_speeds_events_caps demoSpdBuf).2.2.2.1 (by decide), ?_⟩
  exact (c9_v2_speeds_events_caps demoSpdBuf).2.1 _ (by decide)

/-- The detector only ever returns one of the six format tags. -/
theorem detect_tacho_version_closed (raw : Buffer) :
    formatClosed (detect_tacho_version raw) = true := by
  unfold detect_tacho_version
  split_ifs <;> decide

/-- The intended decoder semantics is total: every Python operation that
can raise is either guarded or wrapped inside the function bodies, so
decoding any byte sequence (empty and short buffers included) produces one
result dictionary whose format tag is the detector's classification, with
the Smart-Tacho-V2 section layout exactly when the detector said so;
internal decode failures surface as error/sentinel fields in the result. -/
theorem parse_total_wellformed (raw : Buffer) :
    (parse raw).format = detect_tacho_version raw ∧
    formatClosed (parse raw).format = true ∧
    sectionsIsV2 (parse raw).sections = ((parse raw).format == "Smart Tacho V2") := by
  by_cases h : detect_tacho_version raw = "Smart Tacho V2"
  · simp [parse, parse_smart_tacho_v2, h, sectionsIsV2, formatClosed]
  · have hc := detect_tacho_version_closed raw
    have hb : (detect_tacho_version raw == "Smart Tacho V2") = false := by
      simp [h]
    simp [parse, h, sectionsIsV2, hc, hb]

/-- C1: the no-throw contract fails at the module boundary, not inside the
decode logic.  The driver-name regex literals contain bytes above 0x7F,
which CPython rejects in a bytes literal, so importing the decoder module
raises `SyntaxError` before `parse` can ever run — every use of the
decoder raises, and the caller's generic fallback fires for every file.
The per-function semantics as written (modelled here) is nonetheless
total on every buffer, so the claimed fault containment is the evident
intent and the bytes-literal slip is what breaks it. -/
theorem c1_import_syntax_error :
    pythonBytesLiteralOk driverNamePatternBytes = false ∧
    (0xC4 : Nat) ∈ driverNamePatternBytes ∧ ¬ (0xC4 : Nat) < 128 ∧
    ∀ raw : Buffer, (parse raw).format = detect_tacho_version raw ∧
      formatClosed (parse raw).format = true ∧
      sectionsIsV2 (parse raw).sections = ((parse raw).format == "Smart Tacho V2") :=
  ⟨by decide, by decide, by decide, parse_total_wellformed⟩

/-- C2: the failing input for the card-data locator logic.  With the tag
`05 01` at offset 0 the locator returns 0 and the decoder reports the
section as not found; with the tag absent the locator returns `-1`, which
the truthiness test accepts, and the decoder reads fields at offset `-1`
instead of emitting the not-found marker. -/
theorem c2_card_truthiness_eval :
    (find_section ([5, 1] : Buffer) [5, 1] = 0 ∧
      parse_card_data [5, 1] = CardData.err "Nie znaleziono danych karty") ∧
    (find_section (List.replicate 100 0) [5, 1] = -1 ∧
      parse_card_data (List.replicate 100 0) =
        CardData.ok (StrVal.s []) (StrVal.s []) (StrVal.s []) TimeVal.na StrVal.na) := by
  constructor
  · exact ⟨by decide, by decide⟩
  · exact ⟨by decide, by decide⟩

/-- C3 counterexample: a Standard-EU buffer containing the events tag
`05 03` and the speeds tag `05 04`, each followed by plausible data, decodes
to empty events and speeds sequences — no EventRecord or SpeedSample is ever
produced. -/
theorem c3_counterexample :
    containsB demoTagBuf [5, 3] = true ∧ containsB demoTagBuf [5, 4] = true ∧
    sectionsEvents (parse demoTagBuf).sections = some [] ∧
    sectionsSpeeds (parse demoTagBuf).sections = some [] := by
  exact ⟨by decide, by decide, by decide, by decide⟩

/-- C3 amended: the Standard-EU events and speeds decoders are stubs past
the section lookup: for every buffer they return either the info marker
(when the located offset is 0) or the empty sequence, and never a decoded
record. -/
theorem c3_events_speeds_stub (raw : Buffer) :
    (∀ e ∈ parse_events raw, euEventIsRecord e = false) ∧
    (∀ s ∈ parse_speeds raw, euSpeedIsRecord s = false) ∧
    (parse_events raw = [] ∨ parse_events raw = [EUEvent.info "Brak zdarzeń"]) ∧
    (parse_speeds raw = [] ∨ parse_speeds raw = [EUSpeed.info "Brak danych prędkości"]) := by
  unfold parse_events parse_speeds
  by_cases h1 : find_section raw [5, 3] = 0 <;> by_cases h2 : find_section raw [5, 4] = 0 <;>
    simp [h1, h2, euEventIsRecord, euSpeedIsRecord]

/-- C3 witness: the one buffer shape that reaches the info marker still
yields no record. -/
theorem c3_witness : euEventIsRecord (EUEvent.info "Brak zdarzeń") = false :=
  (c3_events_speeds_stub [5, 3]).1 _ (by decide)

/-- C4 counterexample: a 4-byte buffer with the `DDD` magic is shorter than
20 bytes yet is not classified Unknown. -/
theorem c4_counterexample :
    ([68, 68, 68, 0] : Buffer).length < 20 ∧
    (parse [68, 68, 68, 0]).format = "Standard EU" ∧
    (parse [68, 68, 68, 0]).format ≠ "Unknown" := by
  exact ⟨by decide, by decide, by decide⟩

/-- C4 amended: for buffers under 20 bytes the decode is total and the
header is the explicit error marker whenever the detector does not choose
the Smart Tacho V2 path; the format tag is the detector's output (which can
be `Standard EU`, `EFAS`, … on short buffers, not only `Unknown`). -/
theorem c4_short_buffer (raw : Buffer) (hlen : raw.length < 20)
    (hv : detect_tacho_version raw ≠ "Smart Tacho V2") :
    (parse raw).format = detect_tacho_version raw ∧
    ∃ c v a e s, (parse raw).sections =
      Sections.std (StdHeader.err "Plik zbyt krótki") c v a e s := by
  have hp : parse raw = ⟨detect_tacho_version raw,
      .std (parse_header raw) (parse_card_data raw) (parse_vehicle_data raw)
        (parse_activities raw) (parse_events raw) (parse_speeds raw)⟩ := by
    simp [parse, hv]
  rw [hp]
  have hh : parse_header raw = .err "Plik zbyt krótki" := by
    unfold parse_header
    rw [if_pos hlen]
  refine ⟨rfl, parse_card_data raw, parse_vehicle_data raw, parse_activities raw,
    parse_events raw, parse_speeds raw, ?_⟩
  rw [hh]

/-- C4 witness: the empty buffer. -/
theorem c4_witness :
    (parse ([] : Buffer)).format = detect_tacho_version [] ∧
    ∃ c v a e s, (parse ([] : Buffer)).sections =
      Sections.std (StdHeader.err "Plik zbyt krótki") c v a e s :=
  c4_short_buffer [] (by decide) (by decide)

/-- C5 counterexample: a 20-byte `DDD` buffer whose creation-time field is
Unix second 1 produces a non-sentinel header timestamp in year 1970 — below
the year-2000 bound the claim asserts for every non-sentinel timestamp. -/
theorem c5_counterexample :
    (stdHeaderOf (parse demoC5buf).sections).map headerCreation =
      some (TimeVal.dt ⟨1970, 1, 1, 0, 0, 1⟩) ∧ (1970 : Nat) < 2000 := by
  exact ⟨by decide, by decide⟩

/-- C5 amended: the BCD timestamp decoder honours all the claimed ranges —
a non-sentinel result has year ≥ 2000, month 1–12, day 1–31, hour 0–23,
minute 0–59 (out-of-range combinations, calendar-invalid dates included,
fall back to the sentinel); the plain Unix-timestamp decoder, however, only
rejects 0 and can produce non-sentinel years before 2000. -/
theorem c5_bcd_ranges (raw : Buffer) (offset : Int) (d : DateTime)
    (h : parse_timestamp_bcd raw offset = TimeVal.dt d) :
    2000 ≤ d.year ∧ 1 ≤ d.month ∧ d.month ≤ 12 ∧ 1 ≤ d.day ∧ d.day ≤ 31 ∧
    d.hour ≤ 23 ∧ d.minute ≤ 59 := by
  simp only [parse_timestamp_bcd] at h
  split_ifs at h with h1 h2 h3 h4
  injection h with h5
  subst h5
  refine ⟨?_, h3.1, h3.2.1, h3.2.2.1, h3.2.2.2.1, h3.2.2.2.2.1, h3.2.2.2.2.2⟩
  show 2000 ≤ 2000 + bcd_to_int (List.getD (pySlice raw offset (offset + 4)) 0 0)
  omega

/-- C5 witness: a well-formed BCD field. -/
theorem c5_witness :
    2000 ≤ (DateTime.mk 2024 5 15 8 30 0).year ∧
    1 ≤ (DateTime.mk 2024 5 15 8 30 0).month ∧
    (DateTime.mk 2024 5 15 8 30 0).month ≤ 12 ∧
    1 ≤ (DateTime.mk 2024 5 15 8 30 0).day ∧
    (DateTime.mk 2024 5 15 8 30 0).day ≤ 31 ∧
    (DateTime.mk 2024 5 15 8 30 0).hour ≤ 23 ∧
    (DateTime.mk 2024 5 15 8 30 0).minute ≤ 59 :=
  c5_bcd_ranges [0x24, 0x05, 0x15, 0x83] 0 ⟨2024, 5, 15, 8, 30, 0⟩ (by decide)

/-- C6 counterexample: a 3-byte buffer starting with `VDO` satisfies the
first-20-bytes condition and no higher-priority rule, yet the detector
returns Unknown — rule 3 is guarded by `len(raw) > 100`. -/
theorem c6_counterexample :
    v2HeaderBytesCheck (strB "VDO") = true ∧
    v2MarkerListCheck (strB "VDO") = false ∧ v2VdoSmartCheck (strB "VDO") = false ∧
    detect_tacho_version (strB "VDO") = "Unknown" := by
  exact ⟨by decide, by decide, by decide, by decide⟩

/-- C6 amended: for buffers longer than 100 bytes, whenever rules 1 and 2
fail and the first 20 bytes carry the `STv2`/`VDO` magic or contain
`SMART`, the detector classifies the buffer as Smart Tacho V2. -/
theorem c6_detector_rule3 (raw : Buffer) (hlen : 100 < raw.length)
    (h1 : v2MarkerListCheck raw = false) (h2 : v2VdoSmartCheck raw = false)
    (h3 : v2HeaderBytesCheck raw = true) :
    detect_tacho_version raw = "Smart Tacho V2" := by
  simp [detect_tacho_version, h1, h2, h3, hlen]

/-- C6 witness: 101 bytes starting with `VDO`. -/
theorem c6_witness : detect_tacho_version demoVdo101 = "Smart Tacho V2" :=
  c6_detector_rule3 demoVdo101 (by decide) (by decide) (by decide) (by decide)

end Tacho
